import Mathlib

/-!
Verification of the invoice statement generator service (src/index.py).

The service is a FastAPI application with two POST endpoints,
generate-statement and preview-statement, sharing the pydantic data model
InvoiceItem / StatementRequest and the PDF renderer generate_statement_pdf.
We embed the data model, the validators, the two endpoint bodies and the
renderer as executable Lean definitions and prove the frozen claims about
them.

Modelling conventions:
* python Decimal values are rationals; `round(v, 2)` on a Decimal is
  round-half-to-even at two decimal places (the decimal module default).
* python calendar dates are wrapped naturals (proleptic ordinals).
* the field `due_date` of InvoiceItem is declared `str` in the source
  (line 37) and stays a string after pydantic validation; comparing a str
  against a datetime.date raises TypeError in python, and calling
  `.strftime` on a str raises AttributeError.  These operations are
  therefore embedded as functions which always return the corresponding
  error.  Error message texts are abbreviated models of the python ones
  (quote characters are dropped).
* `date.today()` is an external observation; it is modelled by threading a
  clock (a list of dates) through the computation, one list element being
  consumed per call, so that two calls on either side of a midnight
  boundary may observe different dates.
* reportlab drawing calls are recorded as a list of canvas operations;
  text metrics, date formatting of real dates and the final byte
  serialisation of the canvas are not claim-relevant and are modelled by
  simple deterministic functions.
-/

namespace DeskworkInvoice

/-- A python `datetime.date`, as its proleptic ordinal. -/
structure PyDate where
  ordinal : Nat
deriving DecidableEq, Repr

/-- The python runtime errors that the service can raise. -/
inductive PyErr where
  | typeError (msg : String)
  | attributeError (msg : String)
deriving DecidableEq, Repr

/-- python `str(e)` on an exception: the message. -/
def pyErrStr : PyErr → String
  | .typeError m => m
  | .attributeError m => m

/-- Message of the TypeError raised by `str < date` (abbreviated model of
the python text). -/
def ltTypeErrorMsg : String :=
  "TypeError: < not supported between instances of str and datetime.date"

/-- Message of the TypeError raised by `str >= date`. -/
def geTypeErrorMsg : String :=
  "TypeError: >= not supported between instances of str and datetime.date"

/-- Message of the AttributeError raised by `somestring.strftime(...)`. -/
def strftimeErrMsg : String :=
  "AttributeError: str object has no attribute strftime"

/-- python `s < d` with `s : str` and `d : datetime.date`: neither type
implements the comparison, so python raises TypeError. -/
def pyLtStrDate (_s : String) (_d : PyDate) : Except PyErr Bool :=
  .error (.typeError ltTypeErrorMsg)

/-- python `s >= d` with `s : str` and `d : datetime.date`: TypeError. -/
def pyGeStrDate (_s : String) (_d : PyDate) : Except PyErr Bool :=
  .error (.typeError geTypeErrorMsg)

/-- python `s.strftime(fmt)` with `s : str`: str has no attribute
strftime, AttributeError. -/
def strAttrStrftime (_s : String) (_fmt : String) : Except PyErr String :=
  .error (.attributeError strftimeErrMsg)

/-- `date.strftime("%d %b %Y")` on a real date succeeds; the exact text is
not claim-relevant and is modelled as a deterministic rendering of the
ordinal. -/
def pyDateStrftime (d : PyDate) : String :=
  toString d.ordinal

/-- Round-half-to-even to an integer (the rule used by `round` on python
Decimal values). -/
def roundHalfEvenZ (q : ℚ) : ℤ :=
  if q - ⌊q⌋ < 1/2 then ⌊q⌋
  else if 1/2 < q - ⌊q⌋ then ⌊q⌋ + 1
  else if ⌊q⌋ % 2 = 0 then ⌊q⌋ else ⌊q⌋ + 1

/-- The validator `round_decimal` (src/index.py lines 41-43):
`round(v, 2)` on a Decimal, i.e. round-half-to-even at 2 decimal places. -/
def round_decimal (q : ℚ) : ℚ :=
  ((roundHalfEvenZ (q * 100) : ℤ) : ℚ) / 100

/-- python `float(...)` on a Decimal; the conversion is modelled as the
identity on the rational value (it is never reached on any input, see the
claims about the due-date comparison). -/
def pyFloat (q : ℚ) : ℚ := q

/-- The pydantic model InvoiceItem (src/index.py lines 33-49), after
validation.  Note that `due_date` is declared `str` in the source and so
remains a string. -/
structure InvoiceItem where
  date : PyDate
  activity : String
  reference : String
  due_date : String
  invoice_amount : ℚ
  payments : ℚ
deriving DecidableEq, Repr

/-- Field values of an InvoiceItem as submitted, before the `ge=0`
constraints and the `round_decimal` validator run. -/
structure RawInvoiceItem where
  date : PyDate
  activity : String
  reference : String
  due_date : String
  invoice_amount : ℚ
  payments : ℚ
deriving DecidableEq, Repr

/-- pydantic validation of one InvoiceItem: the `Field(ge=0)` constraints
on invoice_amount and payments, then the `round_decimal` validator
(src/index.py lines 38-43). -/
def validateInvoiceItem (r : RawInvoiceItem) : Option InvoiceItem :=
  if 0 ≤ r.invoice_amount ∧ 0 ≤ r.payments then
    some { date := r.date, activity := r.activity, reference := r.reference,
           due_date := r.due_date,
           invoice_amount := round_decimal r.invoice_amount,
           payments := round_decimal r.payments }
  else none

/-- Item-wise validation of the invoice list (pydantic validates each list
element in order). -/
def validateInvoiceList : List RawInvoiceItem → Option (List InvoiceItem)
  | [] => some []
  | r :: rest =>
    match validateInvoiceItem r with
    | none => none
    | some i =>
      match validateInvoiceList rest with
      | none => none
      | some is => some (i :: is)

/-- The pydantic model StatementRequest (src/index.py lines 51-68), after
validation. -/
structure StatementRequest where
  client_name : String
  company_name : String
  from_date : String
  to_date : String
  invoices : List InvoiceItem
deriving DecidableEq, Repr

/-- Pre-validation field values of a StatementRequest. -/
structure RawStatementRequest where
  client_name : String
  company_name : String
  from_date : String
  to_date : String
  invoices : List RawInvoiceItem
deriving DecidableEq, Repr

/-- Lexicographic comparison of char lists by code point: the order python
uses for `str < str`. -/
def charListLtB : List Char → List Char → Bool
  | _, [] => false
  | [], _ :: _ => true
  | a :: as, b :: bs =>
    if a.toNat < b.toNat then true
    else if b.toNat < a.toNat then false
    else charListLtB as bs

/-- python `a < b` on two str values: lexicographic by code point. -/
def pyStrLt (a b : String) : Bool := charListLtB a.data b.data

/-- The validator `validate_dates` (src/index.py lines 58-62): rejects a
to_date that compares (lexicographically, both being str) below from_date. -/
def validate_dates (v : String) (from_date : String) : Except String String :=
  if pyStrLt v from_date then .error "to_date must be after from_date" else .ok v

/-- pydantic validation of a StatementRequest: name length bounds
(min_length 1, max_length 200), the `validate_dates` validator, the
`min_items=1` bound on invoices and item-wise item validation
(src/index.py lines 51-62).  pydantic collects errors from every field;
we model the first failing check, which suffices for the claims (a request
failing any check is rejected with a validation error). -/
def validateStatementRequest (r : RawStatementRequest) : Except String StatementRequest :=
  if r.client_name.length < 1 ∨ 200 < r.client_name.length then
    .error "client_name: length bounds violated"
  else if r.company_name.length < 1 ∨ 200 < r.company_name.length then
    .error "company_name: length bounds violated"
  else
    match validate_dates r.to_date r.from_date with
    | .error e => .error e
    | .ok _ =>
      if r.invoices.isEmpty then
        .error "invoices: ensure this value has at least 1 items"
      else
        match validateInvoiceList r.invoices with
        | none => .error "invoices: ensure this value is greater than or equal to 0"
        | some items =>
          .ok { client_name := r.client_name, company_name := r.company_name,
                from_date := r.from_date, to_date := r.to_date,
                invoices := items }

/-- The clock: the stream of dates that successive `date.today()` /
`datetime.now()` calls would observe. -/
abbrev Clock := List PyDate

/-- One call of `date.today()`: observe the head of the clock, leaving the
rest for later calls (an empty clock keeps returning day 0). -/
def sampleToday : Clock → PyDate × Clock
  | [] => (⟨0⟩, [])
  | d :: rest => (d, rest)

/-- `sum((inv.invoice_amount - inv.payments) for inv in invoices if
inv.due_date < today)` (src/index.py lines 223-227 and 324-328): a left
fold starting at 0; the filter condition is evaluated for every item in
order, and since due_date is a str compared against a date it raises. -/
def overdueSum (invs : List InvoiceItem) (today : PyDate) : Except PyErr ℚ :=
  invs.foldlM
    (fun acc inv => do
      let isOverdue ← pyLtStrDate inv.due_date today
      pure (if isOverdue then acc + (inv.invoice_amount - inv.payments) else acc))
    0

/-- `sum((inv.invoice_amount - inv.payments) for inv in invoices if
inv.due_date >= today)` (src/index.py lines 228-232 and 329-333). -/
def currentSum (invs : List InvoiceItem) (today : PyDate) : Except PyErr ℚ :=
  invs.foldlM
    (fun acc inv => do
      let isCurrent ← pyGeStrDate inv.due_date today
      pure (if isCurrent then acc + (inv.invoice_amount - inv.payments) else acc))
    0

/-- One reportlab canvas call, as recorded by the embedded renderer.
Coordinates follow the literals of src/index.py (A4 taken as 595 x 842 as
in the source comment on line 82; the exact page constants are not
claim-relevant). -/
inductive CanvasOp where
  | setFont (font : String) (size : ℚ)
  | setFillColorBlack
  | setFillColorBlue
  | setStrokeColorBlack
  | setStrokeColorGray
  | setLineWidth (w : ℚ)
  | setDash (a b : ℚ)
  | resetDash
  | drawString (x y : ℚ) (s : String)
  | drawRightString (x y : ℚ) (s : String)
  | line (x1 y1 x2 y2 : ℚ)
  | linkURL (url : String) (x1 y1 x2 y2 : ℚ)
deriving DecidableEq, Repr

/-- reportlab `stringWidth`, modelled abstractly (text metrics are not
claim-relevant; only the value is fed back into a link rectangle). -/
def stringWidth (s : String) : ℚ := s.length

/-- The f-string formatting `f"{v:,.2f}"`, modelled abstractly as a
deterministic rendering of the rational value. -/
def pyFormatComma2 (q : ℚ) : String := toString q

/-- `buffer.getvalue()` after `c.save()`: the byte serialisation of the
canvas, modelled abstractly as a deterministic encoding of the recorded
operations. -/
def pdfSerialize (ops : List CanvasOp) : String := toString (repr ops)

/-- One iteration of the invoice row loop (src/index.py lines 153-189):
advance y, accumulate `balance = invoice_amount - payments` into the
running balance, draw the row.  Drawing the due-date cell calls
`invoice.due_date.strftime(...)` (line 178) on a str, which raises
AttributeError. -/
def renderRow (st : ℚ × ℚ × List CanvasOp) (inv : InvoiceItem) :
    Except PyErr (ℚ × ℚ × List CanvasOp) := do
  let (running_balance, y, ops) := st
  let y := y - 15
  let balance := inv.invoice_amount - inv.payments
  let running_balance := running_balance + balance
  let ops := ops ++
    [CanvasOp.setFillColorBlack,
     CanvasOp.drawString 40 y (pyDateStrftime inv.date),
     CanvasOp.setFillColorBlue,
     CanvasOp.drawString 115 y inv.reference,
     CanvasOp.linkURL inv.activity 115 (y - 2) (115 + stringWidth inv.reference) (y + 10),
     CanvasOp.setFillColorBlack]
  let dueTxt ← strAttrStrftime inv.due_date "%d %b %Y"
  let ops := ops ++
    [CanvasOp.drawString 310 y dueTxt,
     CanvasOp.drawRightString 450 y (pyFormatComma2 inv.invoice_amount),
     CanvasOp.drawRightString 555 y (pyFormatComma2 running_balance)]
  let y := y - 3
  let ops := ops ++ [CanvasOp.setStrokeColorGray, CanvasOp.line 40 y 555 y]
  pure (running_balance, y, ops)

/-- The PDF renderer `generate_statement_pdf` (src/index.py lines 78-283).
It draws the header band, the invoice table (recomputing the running
balance row by row), the balance-due line, the dotted separator and the
payment-advice block, then serialises the canvas.  Since `from_date` is a
str, the very first `.strftime` call in the header (line 109) raises
AttributeError; the remaining steps are embedded for fidelity but are
unreachable.  The renderer samples its own `today = date.today()` at line
222 for the overdue/current split. -/
def generate_statement_pdf (data : StatementRequest) (clk : Clock) :
    Except PyErr ((List CanvasOp × String) × Clock) := do
  -- header band (lines 96-105)
  let ops : List CanvasOp :=
    [CanvasOp.setFont "Helvetica" 22,
     CanvasOp.drawString 40 792 "OVERDUE STATEMENT",
     CanvasOp.setFont "Helvetica-Bold" 9,
     CanvasOp.drawString 360 792 "From Date",
     CanvasOp.setFont "Helvetica" 9,
     CanvasOp.drawString 480 792 data.client_name,
     CanvasOp.setFont "Helvetica" 9]
  -- line 109: data.from_date.strftime on a str raises AttributeError
  let fromTxt ← strAttrStrftime data.from_date "%d %b %Y"
  let ops := ops ++
    [CanvasOp.drawString 360 777 fromTxt,
     CanvasOp.setFont "Helvetica-Bold" 9,
     CanvasOp.drawString 360 764 "To Date",
     CanvasOp.setFont "Helvetica" 9]
  -- line 117: data.to_date.strftime, same AttributeError
  let toTxt ← strAttrStrftime data.to_date "%d %b %Y"
  let ops := ops ++
    [CanvasOp.drawString 360 749 toTxt,
     CanvasOp.setFont "Helvetica" 10,
     CanvasOp.drawString 40 737 data.company_name,
     -- table headers (lines 134-146), y = 842 - 165
     CanvasOp.setFont "Helvetica-Bold" 9,
     CanvasOp.drawString 40 677 "Date",
     CanvasOp.drawString 115 677 "Activity",
     CanvasOp.drawString 310 677 "Due Date",
     CanvasOp.drawRightString 450 677 "Invoice Amount",
     CanvasOp.drawRightString 555 677 "Balance AUD",
     CanvasOp.setStrokeColorBlack,
     CanvasOp.setLineWidth 1,
     CanvasOp.line 40 674 555 674]
  -- invoice rows (lines 149-189): running balance starts at 0, y at 674
  let (running_balance, y, rowOps) ← data.invoices.foldlM renderRow (0, 674, [])
  let ops := ops ++ rowOps
  -- bottom line (lines 191-195)
  let y := y - 10
  let ops := ops ++
    [CanvasOp.setStrokeColorBlack, CanvasOp.setLineWidth 1,
     CanvasOp.line 40 y 555 y]
  -- balance due (lines 197-202)
  let y := y - 25
  let ops := ops ++
    [CanvasOp.setFont "Helvetica-Bold" 11, CanvasOp.setFillColorBlack,
     CanvasOp.drawRightString 555 y ("BALANCE DUE AUD  " ++ pyFormatComma2 running_balance)]
  -- dotted separator (lines 204-210)
  let y := y - 100
  let ops := ops ++
    [CanvasOp.setStrokeColorBlack, CanvasOp.setLineWidth (1/2),
     CanvasOp.setDash 2 2, CanvasOp.line 40 y 555 y, CanvasOp.resetDash]
  -- payment advice heading (lines 212-219)
  let y := y - 30
  let ops := ops ++
    [CanvasOp.setFont "Helvetica" 23, CanvasOp.drawString 40 y "PAYMENT ADVICE"]
  let y := y - 20
  let ops := ops ++
    [CanvasOp.setFont "Helvetica" 9,
     CanvasOp.drawString 40 y ("To: " ++ data.client_name)]
  -- lines 221-232: the renderer samples its own today and computes the split
  let (today, clk) := sampleToday clk
  let overdue ← overdueSum data.invoices today
  let current ← currentSum data.invoices today
  -- payment details table (lines 234-273)
  let y := y - 35
  let ops := ops ++
    [CanvasOp.setFont "Helvetica-Bold" 9,
     CanvasOp.drawString 320 y "Customer",
     CanvasOp.setFont "Helvetica" 9,
     CanvasOp.drawString 440 y data.company_name,
     CanvasOp.line 320 (y - 5) 555 (y - 5)]
  let y := y - 5 - 13
  let ops := ops ++
    [CanvasOp.setFont "Helvetica-Bold" 9,
     CanvasOp.drawString 320 y "Overdue",
     CanvasOp.drawString 395 y "Current",
     CanvasOp.drawString 470 y "Total AUD Due"]
  let y := y - 15
  let ops := ops ++
    [CanvasOp.setFont "Helvetica" 9,
     CanvasOp.drawString 320 y (pyFormatComma2 overdue),
     CanvasOp.drawString 395 y (pyFormatComma2 current),
     CanvasOp.drawString 470 y (pyFormatComma2 running_balance),
     CanvasOp.line 320 (y - 5) 555 (y - 5)]
  let y := y - 5 - 13
  let ops := ops ++
    [CanvasOp.setFont "Helvetica-Bold" 9,
     CanvasOp.drawString 320 y "Amount Enclosed",
     CanvasOp.line 320 (y - 5) 555 (y - 5)]
  -- c.save(); buffer.getvalue() (lines 277-283)
  pure ((ops, pdfSerialize ops), clk)

/-- An HTTP-level response of the service, as seen by the caller. -/
inductive ApiResponse where
  | validationError (status : Nat) (detail : String)
  | httpError (status : Nat) (detail : String)
  | pdfResponse (bytes : String) (filename : String)
  | jsonResponse (message : String) (total_due overdue_amount current_amount : ℚ)
      (file_size : Nat)
deriving DecidableEq, Repr

/-- `company_name.replace(' ', '_')` from the Content-Disposition header. -/
def spacesToUnderscores (s : String) : String := s.replace " " "_"

/-- `datetime.now().strftime('%Y%m%d')`, modelled abstractly. -/
def formatYYYYMMDD (d : PyDate) : String := toString d.ordinal

/-- Body of the generate-statement endpoint inside its try block
(src/index.py lines 319-348): sample today, compute the overdue and
current totals, render the PDF, and build the attachment response whose
filename embeds `datetime.now()`.  Any raised error is handled by the
caller wrapper. -/
def generate_statement (req : StatementRequest) (clk : Clock) :
    Except PyErr (ApiResponse × Clock) := do
  let (today, clk) := sampleToday clk
  let overdue ← overdueSum req.invoices today
  let current ← currentSum req.invoices today
  let _total_due := pyFloat overdue + pyFloat current
  let ((_ops, pdf_bytes), clk) ← generate_statement_pdf req clk
  let (now, clk) := sampleToday clk
  pure (.pdfResponse pdf_bytes
          ("statement_" ++ spacesToUnderscores req.company_name ++ "_" ++
           formatYYYYMMDD now ++ ".pdf"),
        clk)

/-- Body of the preview-statement endpoint inside its try block
(src/index.py lines 365-385). -/
def preview_statement (req : StatementRequest) (clk : Clock) :
    Except PyErr (ApiResponse × Clock) := do
  let (today, clk) := sampleToday clk
  let overdue ← overdueSum req.invoices today
  let current ← currentSum req.invoices today
  let total_due := pyFloat overdue + pyFloat current
  pure (.jsonResponse "Statement preview generated successfully"
          (round_decimal total_due)
          (round_decimal (pyFloat overdue))
          (round_decimal (pyFloat current))
          0,
        clk)

/-- POST /generate-statement: pydantic validation (HTTP 422 on failure),
then the endpoint body; the `except Exception` handler (src/index.py lines
350-352) turns any raised error into HTTPException 500. -/
def postGenerateStatement (raw : RawStatementRequest) (clk : Clock) : ApiResponse :=
  match validateStatementRequest raw with
  | .error e => .validationError 422 e
  | .ok req =>
    match generate_statement req clk with
    | .error e => .httpError 500 ("Error generating statement: " ++ pyErrStr e)
    | .ok (resp, _) => resp

/-- POST /preview-statement: pydantic validation (HTTP 422 on failure),
then the endpoint body; the `except Exception` handler (src/index.py lines
386-388) turns any raised error into HTTPException 400. -/
def postPreviewStatement (raw : RawStatementRequest) (clk : Clock) : ApiResponse :=
  match validateStatementRequest raw with
  | .error e => .validationError 422 e
  | .ok req =>
    match preview_statement req clk with
    | .error e => .httpError 400 (pyErrStr e)
    | .ok (resp, _) => resp

/-- Vertical position of the closing rule of the invoice table after n
rows: the row loop starts at y = 674 and consumes 18 points per row
(src/index.py lines 125-189).  The A4 canvas is exhausted once this falls
below the page bottom. -/
def rowsBottomY (n : Nat) : ℤ := 674 - 18 * (n : ℤ)

/-! ## Concrete inputs for witnesses, evaluations and counterexamples -/

def rawItemC1 : RawInvoiceItem :=
  { date := ⟨739200⟩, activity := "https://example.com/inv/1",
    reference := "INV-001", due_date := "2025-11-14",
    invoice_amount := 100, payments := 0 }

def rawC1 : RawStatementRequest :=
  { client_name := "Acme Client", company_name := "Deskwork Co",
    from_date := "2025-01-01", to_date := "2025-12-31",
    invoices := [rawItemC1] }

def reqC1 : StatementRequest :=
  { client_name := "Acme Client", company_name := "Deskwork Co",
    from_date := "2025-01-01", to_date := "2025-12-31",
    invoices := [{ date := ⟨739200⟩, activity := "https://example.com/inv/1",
                   reference := "INV-001", due_date := "2025-11-14",
                   invoice_amount := round_decimal 100,
                   payments := round_decimal 0 }] }

def dC1 : PyDate := ⟨739585⟩

def itemC2 : InvoiceItem :=
  { date := ⟨739300⟩, activity := "https://example.com/inv/2",
    reference := "INV-002", due_date := "2025-01-01",
    invoice_amount := 100, payments := 0 }

def reqC2 : StatementRequest :=
  { client_name := "Client Two", company_name := "Issuer Two",
    from_date := "2025-01-01", to_date := "2025-12-31", invoices := [itemC2] }

def rawC2 : RawStatementRequest :=
  { client_name := "Client Two", company_name := "Issuer Two",
    from_date := "2025-01-01", to_date := "2025-12-31",
    invoices := [{ date := ⟨739300⟩, activity := "https://example.com/inv/2",
                   reference := "INV-002", due_date := "2025-01-01",
                   invoice_amount := 100, payments := 0 }] }

def dC2 : PyDate := ⟨739420⟩

/-- An item whose due_date string names the same day as the reference date
dC3 (the boundary case of the overdue/current classification). -/
def itemC3 : InvoiceItem :=
  { date := ⟨739530⟩, activity := "https://example.com/inv/3",
    reference := "INV-003", due_date := "2025-10-12",
    invoice_amount := 40, payments := 0 }

/-- Reference date modelling today = 2025-10-12. -/
def dC3 : PyDate := ⟨739536⟩

def itemC4 : InvoiceItem :=
  { date := ⟨739100⟩, activity := "https://example.com/inv/4",
    reference := "INV-004", due_date := "2025-06-30",
    invoice_amount := 25, payments := 5 }

def reqC4 : StatementRequest :=
  { client_name := "Client Four", company_name := "Issuer Four",
    from_date := "2025-01-01", to_date := "2025-12-31",
    invoices := [itemC4, itemC4] }

def dC4 : PyDate := ⟨739500⟩

def rawItemC5 : RawInvoiceItem :=
  { date := ⟨739400⟩, activity := "https://example.com/inv/5",
    reference := "INV-005", due_date := "2025-09-01",
    invoice_amount := 100, payments := 20 }

def itemC5 : InvoiceItem :=
  { date := ⟨739400⟩, activity := "https://example.com/inv/5",
    reference := "INV-005", due_date := "2025-09-01",
    invoice_amount := round_decimal 100, payments := round_decimal 20 }

def rawC6 : RawStatementRequest :=
  { client_name := "Client Six", company_name := "Issuer Six",
    from_date := "2025-10-01", to_date := "2025-10-31",
    invoices := [{ date := ⟨739530⟩, activity := "https://example.com/inv/6",
                   reference := "INV-006", due_date := "2025-10-15",
                   invoice_amount := 60, payments := 0 }] }

/-- The observation of `date.today()` just before midnight of 2025-10-12. -/
def dOct12 : PyDate := ⟨739536⟩

/-- The observation of `date.today()` just after that midnight. -/
def dOct13 : PyDate := ⟨739537⟩

def rawC7 : RawStatementRequest :=
  { client_name := "Client Seven", company_name := "Issuer Seven",
    from_date := "2025-01-01", to_date := "2024-12-31",
    invoices := [{ date := ⟨739200⟩, activity := "https://example.com/inv/7",
                   reference := "INV-007", due_date := "2025-02-01",
                   invoice_amount := 10, payments := 0 }] }

/-- The scenario-2 style preview input: 50.00 due later, 30.00 with 10.00
paid due earlier. -/
def rawC8 : RawStatementRequest :=
  { client_name := "Client Eight", company_name := "Issuer Eight",
    from_date := "2025-10-01", to_date := "2025-10-31",
    invoices :=
      [{ date := ⟨739530⟩, activity := "https://example.com/inv/8a",
         reference := "INV-008A", due_date := "2025-10-13",
         invoice_amount := 50, payments := 0 },
       { date := ⟨739530⟩, activity := "https://example.com/inv/8b",
         reference := "INV-008B", due_date := "2025-10-11",
         invoice_amount := 30, payments := 10 }] }

def dC8 : PyDate := ⟨739536⟩

def itemC9 : InvoiceItem :=
  { date := ⟨739400⟩, activity := "https://example.com/inv/9",
    reference := "INV-009", due_date := "2025-01-31",
    invoice_amount := 10, payments := 0 }

/-- A validated request with 38 invoice rows, enough to run the row loop
past the bottom of the fixed A4 canvas. -/
def reqC9 : StatementRequest :=
  { client_name := "Client Nine", company_name := "Issuer Nine",
    from_date := "2025-01-01", to_date := "2025-12-31",
    invoices := List.replicate 38 itemC9 }

def reqC10 : StatementRequest :=
  { client_name := "Client Ten", company_name := "Issuer Ten",
    from_date := "2025-01-01", to_date := "2025-12-31",
    invoices := [{ date := ⟨739450⟩, activity := "https://example.com/inv/10",
                   reference := "INV-010", due_date := "2025-08-01",
                   invoice_amount := 80, payments := 15 }] }

def dC10 : PyDate := ⟨739600⟩

/-! ## Helper lemmas -/

/-- Evaluating the overdue filter on any non-empty invoice list raises the
TypeError of `str < date` at the first item. -/
theorem overdueSum_cons (i : InvoiceItem) (rest : List InvoiceItem) (d : PyDate) :
    overdueSum (i :: rest) d = .error (.typeError ltTypeErrorMsg) := rfl

/-- Evaluating the current filter on any non-empty invoice list raises the
TypeError of `str >= date` at the first item. -/
theorem currentSum_cons (i : InvoiceItem) (rest : List InvoiceItem) (d : PyDate) :
    currentSum (i :: rest) d = .error (.typeError geTypeErrorMsg) := rfl

/-- The renderer raises AttributeError on every input: the header already
calls `.strftime` on the str field `from_date` (line 109), so no canvas is
ever serialised and no bytes are produced. -/
theorem pdf_always_errors (data : StatementRequest) (clk : Clock) :
    generate_statement_pdf data clk = .error (.attributeError strftimeErrMsg) := rfl

/-- With a non-empty invoice list, the generate-statement body raises the
TypeError of the first `inv.due_date < today` comparison. -/
theorem generate_statement_error (req : StatementRequest) (clk : Clock)
    (h : req.invoices ≠ []) :
    generate_statement req clk = .error (.typeError ltTypeErrorMsg) := by
  obtain ⟨i, rest, hrw⟩ := List.exists_cons_of_ne_nil h
  simp only [generate_statement, hrw, overdueSum_cons]
  rfl

/-- With a non-empty invoice list, the preview-statement body raises the
same TypeError. -/
theorem preview_statement_error (req : StatementRequest) (clk : Clock)
    (h : req.invoices ≠ []) :
    preview_statement req clk = .error (.typeError ltTypeErrorMsg) := by
  obtain ⟨i, rest, hrw⟩ := List.exists_cons_of_ne_nil h
  simp only [preview_statement, hrw, overdueSum_cons]
  rfl

/-- A request that passes pydantic validation has at least one invoice
item (`min_items=1`). -/
theorem validate_ok_invoices_ne_nil (raw : RawStatementRequest) (req : StatementRequest)
    (h : validateStatementRequest raw = .ok req) : req.invoices ≠ [] := by
  unfold validateStatementRequest at h
  split at h
  · exact Except.noConfusion h
  split at h
  · exact Except.noConfusion h
  split at h
  · exact Except.noConfusion h
  rename_i hok
  split at h
  · exact Except.noConfusion h
  rename_i hne
  split at h
  · exact Except.noConfusion h
  rename_i items hmap
  cases h
  cases hinv : raw.invoices with
  | nil => rw [hinv] at hne; exact absurd rfl hne
  | cons a l =>
    rw [hinv] at hmap
    unfold validateInvoiceList at hmap
    rcases hva : validateInvoiceItem a with _ | i <;> rw [hva] at hmap
    · exact Option.noConfusion hmap
    rcases hvl : validateInvoiceList l with _ | is <;> rw [hvl] at hmap
    · exact Option.noConfusion hmap
    injection hmap with hitems
    rw [← hitems]
    exact List.cons_ne_nil i is

/-- Casting an integer to ℚ and rounding half-to-even gives it back. -/
theorem roundHalfEvenZ_intCast (n : ℤ) : roundHalfEvenZ (n : ℚ) = n := by
  unfold roundHalfEvenZ
  rw [Int.floor_intCast]
  norm_num

/-- round_decimal is idempotent: a value already normalised to 2 decimal
places is unchanged by normalising again. -/
theorem round_decimal_idem (q : ℚ) : round_decimal (round_decimal q) = round_decimal q := by
  unfold round_decimal
  have h : (((roundHalfEvenZ (q * 100) : ℤ) : ℚ) / 100 * 100 : ℚ) =
      ((roundHalfEvenZ (q * 100) : ℤ) : ℚ) := by
    field_simp
  rw [h, roundHalfEvenZ_intCast]

/-! ## Claims -/

/-- Claim C1: for every StatementRequest that passes validation (such a
request always holds at least one invoice item), evaluating the
overdue/current split compares the str field due_date against a calendar
date, which raises TypeError; the generate-statement endpoint therefore
answers with the server-fault error 500 and the preview-statement endpoint
with the client-fault error 400, and neither endpoint ever returns totals
or a document. -/
theorem endpoints_never_return_totals (raw : RawStatementRequest)
    (req : StatementRequest) (h : validateStatementRequest raw = .ok req)
    (clk clk' : Clock) :
    postGenerateStatement raw clk =
      .httpError 500 ("Error generating statement: " ++ ltTypeErrorMsg) ∧
    postPreviewStatement raw clk' = .httpError 400 ltTypeErrorMsg := by
  have hne := validate_ok_invoices_ne_nil raw req h
  refine ⟨?_, ?_⟩
  · simp only [postGenerateStatement, h, generate_statement_error req clk hne]
    rfl
  · simp only [postPreviewStatement, h, preview_statement_error req clk' hne]
    rfl

/-- Witness for C1 at a concrete validated one-item request. -/
theorem endpoints_never_return_totals_witness :
    validateStatementRequest rawC1 = .ok reqC1 ∧
    postGenerateStatement rawC1 [dC1] =
      .httpError 500 ("Error generating statement: " ++ ltTypeErrorMsg) ∧
    postPreviewStatement rawC1 [dC1] = .httpError 400 ltTypeErrorMsg :=
  ⟨rfl, (endpoints_never_return_totals rawC1 reqC1 rfl [dC1] [dC1]).1,
    (endpoints_never_return_totals rawC1 reqC1 rfl [dC1] [dC1]).2⟩

/-- Claim C2, evaluated on the code: on a concrete one-item request
neither computation path produces a grand total — the endpoint aggregation
raises TypeError at the first due-date comparison, the renderer raises
AttributeError before completing any row, and the endpoint answers 500 —
so the claimed agreement of the two paths never materialises on any
input. -/
theorem grand_total_paths_crash_eval :
    overdueSum [itemC2] dC2 = .error (.typeError ltTypeErrorMsg) ∧
    generate_statement_pdf reqC2 [dC2] = .error (.attributeError strftimeErrMsg) ∧
    postGenerateStatement rawC2 [dC2] =
      .httpError 500 ("Error generating statement: " ++ ltTypeErrorMsg) :=
  ⟨rfl, rfl, rfl⟩

/-- Claim C3, evaluated on the code: an item due exactly on the reference
day is never classified at all — both classification sums raise TypeError
at the str-vs-date comparison instead of counting the item as current. -/
theorem due_today_classification_crash_eval :
    overdueSum [itemC3] dC3 = .error (.typeError ltTypeErrorMsg) ∧
    currentSum [itemC3] dC3 = .error (.typeError geTypeErrorMsg) :=
  ⟨rfl, rfl⟩

/-- Claim C4, evaluated on the code: no running balance is ever rendered —
the renderer raises AttributeError in the header before reaching the row
loop, and even a single row iteration raises AttributeError at the
due-date cell before drawing its balance. -/
theorem running_balance_render_crash_eval :
    renderRow (0, 674, []) itemC4 = .error (.attributeError strftimeErrMsg) ∧
    generate_statement_pdf reqC4 [dC4] = .error (.attributeError strftimeErrMsg) :=
  ⟨rfl, rfl⟩

/-- Claim C5: every amount and payment is rounded exactly once at
validation time by round_decimal, which is round-half-to-even at 2 decimal
places: an amount of 10.005 normalises to exactly 10.00 (one single rule),
and the normalised value is a fixed point of the rule, so the value every
downstream sum receives is the one fixed at validation time, with no
re-rounding drift. -/
theorem rounding_once_half_even :
    (∀ raw item, validateInvoiceItem raw = some item →
        item.invoice_amount = round_decimal raw.invoice_amount ∧
        item.payments = round_decimal raw.payments) ∧
    round_decimal (10005/1000) = 10 ∧
    (∀ q : ℚ, round_decimal (round_decimal q) = round_decimal q) := by
  refine ⟨?_, ?_, round_decimal_idem⟩
  · intro raw item h
    unfold validateInvoiceItem at h
    split at h
    · cases h; exact ⟨rfl, rfl⟩
    · exact Option.noConfusion h
  · norm_num [round_decimal, roundHalfEvenZ]

/-- Witness for C5: a concrete validated item carries exactly the
round_decimal images of the submitted amounts. -/
theorem rounding_once_half_even_witness :
    validateInvoiceItem rawItemC5 = some itemC5 ∧
    itemC5.invoice_amount = round_decimal rawItemC5.invoice_amount :=
  ⟨rfl, (rounding_once_half_even.1 rawItemC5 itemC5 rfl).1⟩

/-- Claim C6, evaluated on the code: with the clock crossing a midnight
boundary, the generate-statement endpoint samples the first date and then
fails with the TypeError, so no single reference date is ever shared with
the renderer split (which has its own, unreached, date.today() call);
consecutive clock observations genuinely differ. -/
theorem today_sampling_crash_eval :
    postGenerateStatement rawC6 [dOct12, dOct13] =
      .httpError 500 ("Error generating statement: " ++ ltTypeErrorMsg) ∧
    (sampleToday [dOct12, dOct13]).1 ≠
      (sampleToday (sampleToday [dOct12, dOct13]).2).1 :=
  ⟨rfl, by decide⟩

/-- Claim C7: a request whose to_date is lexically below its from_date is
rejected by validation: both endpoints answer with the client-fault
validation error 422 and neither engine component runs — no document and
no totals are produced. -/
theorem inverted_period_rejected (raw : RawStatementRequest)
    (h : pyStrLt raw.to_date raw.from_date = true) (clk clk' : Clock) :
    (∃ e, validateStatementRequest raw = .error e) ∧
    (∃ e, postGenerateStatement raw clk = .validationError 422 e) ∧
    (∃ e, postPreviewStatement raw clk' = .validationError 422 e) := by
  have hd : validate_dates raw.to_date raw.from_date =
      .error "to_date must be after from_date" := by
    unfold validate_dates
    simp [h]
  have hv : ∃ e, validateStatementRequest raw = .error e := by
    unfold validateStatementRequest
    split
    · exact ⟨_, rfl⟩
    split
    · exact ⟨_, rfl⟩
    rw [hd]
    exact ⟨_, rfl⟩
  obtain ⟨e, he⟩ := hv
  refine ⟨⟨e, he⟩, ⟨e, ?_⟩, ⟨e, ?_⟩⟩
  · unfold postGenerateStatement
    rw [he]
  · unfold postPreviewStatement
    rw [he]

/-- Witness for C7 at a concrete request with inverted period labels. -/
theorem inverted_period_rejected_witness :
    pyStrLt rawC7.to_date rawC7.from_date = true ∧
    (∃ e, postGenerateStatement rawC7 [] = .validationError 422 e) ∧
    (∃ e, postPreviewStatement rawC7 [] = .validationError 422 e) :=
  ⟨by decide, (inverted_period_rejected rawC7 (by decide) [] []).2.1,
    (inverted_period_rejected rawC7 (by decide) [] []).2.2⟩

/-- Claim C8, evaluated on the code: the preview endpoint never returns
the file_size-0 summary — on the scenario-2 style request it answers with
the client-fault error 400 raised by the due-date comparison, and no
totals record is built. -/
theorem preview_crash_eval :
    postPreviewStatement rawC8 [dC8] = .httpError 400 ltTypeErrorMsg := rfl

/-- Claim C9: on any request whose invoice list exhausts the fixed A4
canvas (the row loop would run past the page bottom), the renderer fails
with an error and emits no byte stream at all — it never silently
truncates, crops, or returns partial output (indeed it raises already in
the header, before any row is drawn). -/
theorem renderer_error_on_canvas_overflow (data : StatementRequest)
    (clk : Clock) (_h : rowsBottomY data.invoices.length < 0) :
    generate_statement_pdf data clk = .error (.attributeError strftimeErrMsg) :=
  pdf_always_errors data clk

/-- Witness for C9: a 38-row request overruns the canvas and the renderer
errors out without emitting bytes. -/
theorem renderer_error_on_canvas_overflow_witness :
    rowsBottomY reqC9.invoices.length < 0 ∧
    generate_statement_pdf reqC9 [] = .error (.attributeError strftimeErrMsg) :=
  ⟨by decide, renderer_error_on_canvas_overflow reqC9 [] (by decide)⟩

/-- Claim C10 counterexample: rendering the concrete validated request
reqC10 produces no PDF byte stream at all, so the claim that rendering it
(twice) produces byte-identical PDF output is false — there is no PDF
output to compare. -/
theorem render_no_pdf_counterexample :
    ¬ ∃ ops bytes clkOut,
        generate_statement_pdf reqC10 [dC10] = .ok ((ops, bytes), clkOut) := by
  rintro ⟨ops, bytes, clkOut, hok⟩
  rw [pdf_always_errors] at hok
  exact Except.noConfusion hok

/-- Claim C10 (amended): rendering the same validated request twice, under
any reference-date observations, gives identical outcomes: every render
fails deterministically with the same AttributeError before any bytes are
emitted, so no timestamp or randomness can influence the (absent)
output. -/
theorem render_deterministic_no_pdf (data : StatementRequest) (clk clk' : Clock) :
    generate_statement_pdf data clk = generate_statement_pdf data clk' ∧
    generate_statement_pdf data clk = .error (.attributeError strftimeErrMsg) :=
  ⟨(pdf_always_errors data clk).trans (pdf_always_errors data clk').symm,
    pdf_always_errors data clk⟩

end DeskworkInvoice
